import Mathlib

/-! Shallow embedding of the MedPrompt triage engine (`src/triage_agent.py`,
plus the fallback-response selection of `src/app.py`), together with theorems
checking the specification's claims against it.

Python strings are modelled as `List Char`; `str.lower` as `Char.toLower`
mapped over the list (all texts involved are ASCII); `str.strip` as dropping
whitespace from both ends; `x in s` as substring containment.  Each concrete
regular-expression pattern appearing in the source is translated to an
equivalent executable search over `List Char`: a pattern that is an
alternation of literals is a substring check for any of the literals, and a
pattern of the form `g1.*g2.*...` is a scan for the groups in order with only
non-newline characters in the gaps (Python `.` does not match a newline). -/

namespace MedPrompt

/-- All suffixes of a list, longest first (the list itself is first, `[]` is
last).  Used to express a search at every start position. -/
def suffixesOf : List Char → List (List Char)
  | [] => [[]]
  | c :: r => (c :: r) :: suffixesOf r

/-- Python `needle in hay` (substring containment); also the semantics of
`re.search` for a pattern that is a single literal. -/
def strContains (hay needle : List Char) : Bool :=
  (suffixesOf hay).any fun t => needle.isPrefixOf t

/-- Python `str.lower` (ASCII). -/
def lowerL (l : List Char) : List Char := l.map Char.toLower

/-- `re.search` on the lowercased text for a pattern that is an alternation of
the literal strings `ws` (`_check_pattern_match` lowercases its text argument
before matching). -/
def hitLits (u : List Char) (ws : List String) : Bool :=
  ws.any fun w => strContains (lowerL u) w.data

/-- Scan forward over characters that `.` may match (any character except a
newline), testing `next` at every position; the semantics of a `.*` gap. -/
def gapScan (next : List Char → Bool) : List Char → Bool
  | [] => next []
  | c :: r => next (c :: r) || (c != '\n' && gapScan next r)

/-- Match a sequence of alternation groups separated by `.*` gaps, anchored at
the start of `t`: some literal of the first group is a prefix of `t`, and
after a (possibly empty) run of non-newline characters the remaining groups
match in the same way. -/
def groupSeq : List (List String) → List Char → Bool
  | [], _ => true
  | g :: gs, t =>
    g.any fun a => a.data.isPrefixOf t && gapScan (fun t2 => groupSeq gs t2) (t.drop a.data.length)

/-- `re.search` on the lowercased text of a pattern `g1.*g2.*...*gk`, each
`gi` an alternation of literals: try every start position. -/
def seqSearch (u : List Char) (gs : List (List String)) : Bool :=
  (suffixesOf (lowerL u)).any fun t => groupSeq gs t

/-- `re.search` of the age pattern `(\d+)[\s-]*(month|year|week)[\s-]*(old)`
from `_is_pediatric_case`: a digit, the rest of the digit run, a run of
whitespace/hyphens, one of the period words, a run of whitespace/hyphens, then
`old`.  The character classes here are disjoint from the digits and from the
first letters of the period words and of `old`, so scanning maximal runs is
equivalent to the regex search. -/
def pedAgeSearch (s : List Char) : Bool :=
  (suffixesOf s).any fun t =>
    match t with
    | [] => false
    | c :: rest =>
      c.isDigit &&
      (let r1 := (rest.dropWhile Char.isDigit).dropWhile fun d => d.isWhitespace || d == '-'
       [("month"), ("year"), ("week")].any fun k =>
         k.data.isPrefixOf r1 &&
         (("old")).data.isPrefixOf
           ((r1.drop k.data.length).dropWhile fun d => d.isWhitespace || d == '-'))

/-- `TriageSeverity` from `src/triage_agent.py`. -/
inductive TriageSeverity
  | EMERGENCY | URGENT | SEMI_URGENT | ROUTINE | SELF_CARE
deriving DecidableEq

/-- `CarePathway` from `src/triage_agent.py`. -/
inductive CarePathway
  | EMERGENCY_ROOM | URGENT_CARE | PRIMARY_CARE | TELEHEALTH | SELF_MANAGEMENT
deriving DecidableEq

/-- The `.value` string of each `TriageSeverity` member. -/
def severityValue : TriageSeverity → List Char
  | .EMERGENCY => (("emergency")).data
  | .URGENT => (("urgent")).data
  | .SEMI_URGENT => (("semi-urgent")).data
  | .ROUTINE => (("routine")).data
  | .SELF_CARE => (("self-care")).data

/-- The child-reference group `(baby|infant|child)` heading the pediatric
patterns. -/
def bicGroup : List String := [("baby"), ("infant"), ("child")]

/-- `is_chronic` of `classify_severity`: a chronic term occurs in the
lowercased unit. -/
def isChronic (u : List Char) : Bool :=
  [("chronic"), ("persistent"), ("ongoing"), ("months"), ("weeks")].any
    fun t => strContains (lowerL u) t.data

/-- `is_worsening` of `classify_severity`. -/
def isWorsening (u : List Char) : Bool :=
  [("worse"), ("worsening"), ("increased"), ("higher"), ("elevated")].any
    fun t => strContains (lowerL u) t.data

/-- The severity-intensifier containment check of `classify_severity`. -/
def intensifierHit (u : List Char) : Bool :=
  [("severe"), ("extreme"), ("intense"), ("unbearable"), ("worst")].any
    fun t => strContains (lowerL u) t.data

/-- The pain/breathing-context containment check of `classify_severity`. -/
def painContextHit (u : List Char) : Bool :=
  [("pain"), ("headache"), ("chest"), ("breathing")].any
    fun t => strContains (lowerL u) t.data

/-- `"asthma" in symptom.lower()`. -/
def hasAsthma (u : List Char) : Bool := strContains (lowerL u) (("asthma")).data

/-- The severe-asthma term check inside the asthma override. -/
def asthmaSevereHit (u : List Char) : Bool :=
  [("attack"), ("can\x27t breathe"), ("severe"), ("emergency")].any
    fun t => strContains (lowerL u) t.data

/-- `"blood sugar" in symptom.lower() or "diabetes" in symptom.lower()`. -/
def hasBloodSugar (u : List Char) : Bool :=
  strContains (lowerL u) (("blood sugar")).data || strContains (lowerL u) (("diabetes")).data

/-- The dangerous-blood-sugar term check inside the blood-sugar override. -/
def bloodSugarDangerHit (u : List Char) : Bool :=
  [("very high"), ("extremely"), ("dangerously")].any
    fun t => strContains (lowerL u) t.data

/-- `"back pain" in symptom.lower()`. -/
def hasBackPain (u : List Char) : Bool := strContains (lowerL u) (("back pain")).data

/-- The severe-back-pain term check inside the back-pain override. -/
def backPainSevereHit (u : List Char) : Bool :=
  [("severe"), ("can\x27t move"), ("debilitating")].any
    fun t => strContains (lowerL u) t.data

/-- `self.emergency_indicators`, pattern by pattern in source order;
alternations and the optional `(ache)?` are expanded into their literals. -/
def emergencyHit (u : List Char) : Bool :=
  hitLits u
    [("difficulty breathing"), ("shortness of breath"), ("chest pain"),
     ("severe pain"), ("severe bleeding"), ("unconscious"), ("unresponsive"),
     ("stroke"), ("heart attack"), ("seizure"),
     ("unable to speak"), ("unable to move"),
     ("sudden numbness"), ("sudden weakness"),
     ("severe head with fever"), ("severe head with stiff neck"),
     ("severe headache with fever"), ("severe headache with stiff neck"),
     ("suicidal"), ("overdose"), ("poisoning")] ||
  seqSearch u [bicGroup, [("not breathing"), ("turning blue"), ("choking")]] ||
  seqSearch u [bicGroup, [("unresponsive"), ("unconscious"), ("won\x27t wake up")]] ||
  seqSearch u [bicGroup, [("seizure"), ("convulsion")]] ||
  seqSearch u [bicGroup, [("severe dehydration"), ("not urinating")]] ||
  seqSearch u [bicGroup, [("rash")], [("doesn\x27t blanch"), ("doesn\x27t fade")]] ||
  seqSearch u [bicGroup, [("lethargic"), ("extremely weak")]] ||
  seqSearch u [bicGroup, [("high fever")],
    [("under 3 months"), ("under three months"),
     ("less than 3 months"), ("less than three months")]]

/-- `self.urgent_indicators`, pattern by pattern in source order. -/
def urgentHit (u : List Char) : Bool :=
  hitLits u
    [("high fever"), ("persistent vomiting"), ("dehydration"), ("infection"),
     ("moderate pain"), ("moderate bleeding"), ("broken bone"), ("deep cut"),
     ("burn"), ("allergic reaction"), ("pregnancy complication"),
     ("severe rash"), ("severe swelling"), ("eye injury"),
     ("mental health crisis")] ||
  seqSearch u [bicGroup, [("fever")], [("102"), ("103"), ("104"), ("105")]] ||
  seqSearch u [bicGroup, [("not feeding"), ("refusing to eat"), ("drink")]] ||
  seqSearch u [bicGroup, [("unusual crying"), ("unusual screaming")]] ||
  seqSearch u [bicGroup, [("bulging fontanelle")]] ||
  seqSearch u [bicGroup, [("persistent vomiting"), ("diarrhea")]]

/-- `self.semi_urgent_indicators`, pattern by pattern in source order. -/
def semiUrgentHit (u : List Char) : Bool :=
  hitLits u
    [("earache"), ("earinfection"), ("sinus pain"), ("sinus infection"),
     ("minor infection"), ("mild to moderate pain"), ("sprain"), ("strain"),
     ("minor injury"), ("persistent symptoms"), ("worsening chronic condition")] ||
  seqSearch u [[("fever")], [("101"), ("102")]] ||
  seqSearch u [[("swollen")], [("ankle"), ("joint"), ("knee"), ("wrist")]] ||
  seqSearch u [[("diarrhea")], [("3 days"), ("three days"), ("several days")]] ||
  hitLits u [("persistent diarrhea"), ("fall"), ("fell"), ("falling"),
             ("twisted"), ("twist")] ||
  seqSearch u [[("asthma")], [("significantly worse"), ("severe"), ("attack")]] ||
  seqSearch u [[("blood sugar")],
    [("very high"), ("dangerously high"), ("extremely elevated")]] ||
  seqSearch u [[("diabetes"), ("diabetic")], [("uncontrolled"), ("out of control")]] ||
  seqSearch u [[("back pain")], [("severe"), ("debilitating"), ("can\x27t move")]] ||
  seqSearch u [bicGroup, [("ear infection"), ("ear pain")]] ||
  seqSearch u [bicGroup, [("fever")], [("100"), ("101")]] ||
  seqSearch u [bicGroup, [("mild rash")]] ||
  seqSearch u [bicGroup, [("cough"), ("cold")], [("several days")]]

/-- The duration pattern `(month|months|week|weeks|day|days)` of
`self.routine_indicators`. -/
def dateIndicatorHit (u : List Char) : Bool :=
  hitLits u [("month"), ("months"), ("week"), ("weeks"), ("day"), ("days")]

/-- `self.routine_indicators`, pattern by pattern in source order. -/
def routineHit (u : List Char) : Bool :=
  hitLits u
    [("chronic condition"), ("follow-up"), ("medication refill"),
     ("mild symptoms"), ("general check-up"), ("non-urgent concern"),
     ("mild rash"), ("mild pain"), ("routine screening")] ||
  seqSearch u [[("asthma")], [("worse"), ("worsening")]] ||
  seqSearch u [[("persistent")], [("pain"), ("ache")]] ||
  seqSearch u [[("blood sugar")], [("higher"), ("elevated"), ("abnormal")]] ||
  seqSearch u [[("diabetes"), ("diabetic")], [("control"), ("management")]] ||
  seqSearch u [[("back pain")], [("chronic"), ("persistent"), ("ongoing")]] ||
  dateIndicatorHit u ||
  seqSearch u [bicGroup, [("mild fever")]] ||
  seqSearch u [bicGroup, [("minor cough"), ("runny nose")]] ||
  seqSearch u [bicGroup, [("diaper rash")]] ||
  seqSearch u [bicGroup, [("feeding question"), ("growth concern")]]

/-- `self.self_care_indicators`, pattern by pattern in source order.  The
constructor builds this list, but `classify_severity` never consults it; it is
embedded here because claim C10 refers to it. -/
def selfCareHit (u : List Char) : Bool :=
  hitLits u
    [("common cold"), ("minor headache"), ("mild fever"), ("sore throat"),
     ("minor cut"), ("scrape"), ("bruise"), ("mild allergies"),
     ("mild digestive issues"), ("general fatigue"), ("tired"), ("fatigue"),
     ("runny nose"), ("sneezing"), ("cough"), ("mild cough"),
     ("occasional cough"), ("slight headache"), ("mild pain"), ("minor pain"),
     ("slight pain"), ("itchy"), ("itching"), ("dry skin"), ("rash"),
     ("minor rash"), ("upset stomach"), ("indigestion"), ("gas"), ("bloating")] ||
  seqSearch u [bicGroup, [("slight fever"), ("low-grade fever")]] ||
  seqSearch u [bicGroup, [("minor cough"), ("sniffle")]] ||
  seqSearch u [bicGroup, [("small scrape"), ("minor bruise")]] ||
  seqSearch u [bicGroup, [("teething")]] ||
  seqSearch u [bicGroup, [("mild diaper rash")]] ||
  seqSearch u [bicGroup, [("occasional fussiness")]]

/-- The per-unit classification of `classify_severity` (the body of the
`for symptom in symptom_list` loop): intensifier override, then the asthma /
blood-sugar / back-pain domain overrides, then the four tier pattern sets,
then the chronic-and-worsening fallback, then the `SELF_CARE` default. -/
def classifyUnit (symptom : List Char) : TriageSeverity :=
  if intensifierHit symptom && painContextHit symptom then .EMERGENCY
  else if hasAsthma symptom then
    (if asthmaSevereHit symptom then .EMERGENCY
     else if isWorsening symptom then .SEMI_URGENT
     else .ROUTINE)
  else if hasBloodSugar symptom then
    (if bloodSugarDangerHit symptom then .URGENT
     else if isWorsening symptom then .SEMI_URGENT
     else .ROUTINE)
  else if hasBackPain symptom then
    (if backPainSevereHit symptom then .SEMI_URGENT
     else if isChronic symptom then .ROUTINE
     else .SELF_CARE)
  else if emergencyHit symptom then .EMERGENCY
  else if urgentHit symptom then .URGENT
  else if semiUrgentHit symptom then .SEMI_URGENT
  else if routineHit symptom then .ROUTINE
  else if isChronic symptom && isWorsening symptom then .ROUTINE
  else .SELF_CARE

/-- Python `s.split(sep)` for a non-empty separator, with explicit fuel so
that the recursion is structural (the fuel is instantiated with the length of
the text, which always suffices): scan left to right, cut at each
non-overlapping occurrence of `sep`, keep empty pieces. -/
def splitOnF (sep : List Char) : Nat → List Char → List (List Char)
  | _, [] => [[]]
  | 0, c :: rest => [c :: rest]
  | fuel + 1, c :: rest =>
    if sep.isPrefixOf (c :: rest) then
      [] :: splitOnF sep fuel (rest.drop (sep.length - 1))
    else
      match splitOnF sep fuel rest with
      | [] => [[c]]
      | p :: ps => (c :: p) :: ps

/-- Python `s.split(sep)`. -/
def splitOn (sep l : List Char) : List (List Char) := splitOnF sep l.length l

/-- Python `str.strip`: drop whitespace from both ends. -/
def trim (l : List Char) : List Char :=
  ((l.dropWhile Char.isWhitespace).reverse.dropWhile Char.isWhitespace).reverse

/-- The delimiter selection of `classify_severity`: split on newlines; if that
produced a single piece, split instead on the first of `" - "`, `"• "`,
`", "` occurring in the text. -/
def rawPieces (symptoms : List Char) : List (List Char) :=
  if (splitOn (("\n")).data symptoms).length = 1 then
    if strContains symptoms ((" - ")).data then splitOn ((" - ")).data symptoms
    else if strContains symptoms (("• ")).data then splitOn (("• ")).data symptoms
    else if strContains symptoms ((", ")).data then splitOn ((", ")).data symptoms
    else splitOn (("\n")).data symptoms
  else splitOn (("\n")).data symptoms

/-- The segmentation step of `classify_severity`:
`symptom_list = [s.strip() for s in symptom_list if s.strip()]`. -/
def segment (symptoms : List Char) : List (List Char) :=
  ((rawPieces symptoms).map trim).filter fun p => !p.isEmpty

/-- Modelled from the spec (§4.1): the first delimiter type, in the priority
order newline, `" - "`, `"• "`, `", "`, that occurs anywhere in the text. -/
def firstDelim (symptoms : List Char) : Option (List Char) :=
  if strContains symptoms (("\n")).data then some (("\n")).data
  else if strContains symptoms ((" - ")).data then some ((" - ")).data
  else if strContains symptoms (("• ")).data then some (("• ")).data
  else if strContains symptoms ((", ")).data then some ((", ")).data
  else none

/-- Modelled from the spec (§4.1): split the whole text with the first
delimiter that occurs (the whole text is one unit when none does), then trim
and drop empty units.  Used only to state the refinement half of claim C4. -/
def segment_spec (symptoms : List Char) : List (List Char) :=
  ((match firstDelim symptoms with
    | some d => splitOn d symptoms
    | none => [symptoms]).map trim).filter fun p => !p.isEmpty

/-- The explicit `severity_order` dictionary of `classify_severity`. -/
def severity_order : TriageSeverity → Nat
  | .EMERGENCY => 0
  | .URGENT => 1
  | .SEMI_URGENT => 2
  | .ROUTINE => 3
  | .SELF_CARE => 4

/-- The sort key order used by `severity_levels.sort(key=...)`. -/
def sevLE (a b : TriageSeverity) : Prop := severity_order a ≤ severity_order b

instance : DecidableRel sevLE := fun a b => Nat.decLe (severity_order a) (severity_order b)

instance : IsTotal TriageSeverity sevLE := ⟨fun a b => Nat.le_total (severity_order a) (severity_order b)⟩

instance : IsTrans TriageSeverity sevLE := ⟨fun _ _ _ h h2 => Nat.le_trans h h2⟩

/-- The aggregation tail of `classify_severity`: if any per-unit severities
were collected, sort them by `severity_order` and return the first (most
severe); otherwise default to `SELF_CARE`. -/
def aggregate (severity_levels : List TriageSeverity) : TriageSeverity :=
  match List.insertionSort sevLE severity_levels with
  | [] => TriageSeverity.SELF_CARE
  | most_severe :: _ => most_severe

/-- `TriageAgent.classify_severity`: segment, classify each unit, aggregate. -/
def classify_severity (symptoms : List Char) : TriageSeverity :=
  aggregate ((segment symptoms).map classifyUnit)

/-- `TriageAgent.recommend_care_pathway`: the fixed `pathway_map` table. -/
def recommend_care_pathway : TriageSeverity → CarePathway
  | .EMERGENCY => .EMERGENCY_ROOM
  | .URGENT => .URGENT_CARE
  | .SEMI_URGENT => .PRIMARY_CARE
  | .ROUTINE => .TELEHEALTH
  | .SELF_CARE => .SELF_MANAGEMENT

/-- `TriageAgent._is_pediatric_case`: the pediatric indicator patterns checked
over the whole report via `_check_pattern_match`. -/
def is_pediatric_case (symptoms : List Char) : Bool :=
  hitLits symptoms [("baby"), ("infant"), ("child"), ("kid"), ("toddler"), ("newborn")] ||
  pedAgeSearch (lowerL symptoms) ||
  hitLits symptoms [("my son")] ||
  hitLits symptoms [("my daughter")] ||
  hitLits symptoms [("pediatric")] ||
  hitLits symptoms [("children")]

/-- The pediatric instruction table of `get_care_instructions`. -/
def pediatricInstructions : CarePathway → List Char
  | .EMERGENCY_ROOM =>
    (("SEEK IMMEDIATE MEDICAL ATTENTION FOR YOUR CHILD. Go to the nearest pediatric emergency room or call emergency services (911). For infants and young children, emergency symptoms require immediate professional evaluation.")).data
  | .URGENT_CARE =>
    (("Take your child to a pediatric urgent care center within 24 hours. If symptoms worsen, go to the emergency room immediately. Children can deteriorate quickly, so close monitoring is essential.")).data
  | .PRIMARY_CARE =>
    (("Schedule an appointment with your child\x27s pediatrician within the next few days. In the meantime, monitor your child\x27s symptoms closely and ensure they stay hydrated.")).data
  | .TELEHEALTH =>
    (("Consider scheduling a telehealth appointment with your child\x27s pediatrician. Have a thermometer and other relevant home medical equipment ready for the consultation.")).data
  | .SELF_MANAGEMENT =>
    (("Your child\x27s symptoms can likely be managed at home with appropriate care. Ensure they get plenty of rest, stay hydrated, and monitor their temperature regularly. If symptoms persist beyond 48 hours, worsen suddenly, or if your child appears unusually lethargic, consult a healthcare provider.")).data

/-- The adult instruction table of `get_care_instructions`. -/
def adultInstructions : CarePathway → List Char
  | .EMERGENCY_ROOM =>
    (("SEEK IMMEDIATE MEDICAL ATTENTION. Go to the nearest emergency room or call emergency services (911).")).data
  | .URGENT_CARE =>
    (("Visit an urgent care center within 24 hours. If symptoms worsen, go to the emergency room.")).data
  | .PRIMARY_CARE =>
    (("Schedule an appointment with your primary care physician within the next few days.")).data
  | .TELEHEALTH =>
    (("Consider scheduling a telehealth appointment with a healthcare provider.")).data
  | .SELF_MANAGEMENT =>
    (("Your symptoms can likely be managed at home with rest and over-the-counter remedies. If symptoms persist or worsen, consult a healthcare provider.")).data

/-- `TriageAgent.get_care_instructions`: pick the pediatric or adult table
according to `_is_pediatric_case` on the whole report, then index it with the
pathway. -/
def get_care_instructions (pathway : CarePathway) (symptoms : List Char) : List Char :=
  if is_pediatric_case symptoms then pediatricInstructions pathway
  else adultInstructions pathway

/-- The result dictionary of `TriageAgent.triage_symptoms`. -/
structure TriageResult where
  severity : TriageSeverity
  care_pathway : CarePathway
  instructions : List Char
deriving DecidableEq

/-- `TriageAgent.triage_symptoms`. -/
def triage_symptoms (symptoms : List Char) : TriageResult :=
  let severity := classify_severity symptoms
  let pathway := recommend_care_pathway severity
  let instructions := get_care_instructions pathway symptoms
  ⟨severity, pathway, instructions⟩

/-- The possible outcomes of the Ollama text-generation call in
`analyze_symptoms` (`src/app.py`): a JSON body carrying a `response` field, a
JSON body carrying an `error` field, a JSON body with neither, a body that is
not valid JSON, a timeout, a connection error (including the availability
probe failing), or any other exception. -/
inductive OllamaOutcome
  | success (resp : List Char)
  | noResponseField
  | modelError (msg : List Char)
  | invalidJson
  | timeout
  | connectionError
  | otherError (msg : List Char)
deriving DecidableEq

/-- The `ai_response` selection of `analyze_symptoms` (`src/app.py` lines
121–157), as a function of the triage severity value string and of the
generation outcome.  Only the timeout branch consults the severity. -/
def ai_response_of (severityVal : List Char) : OllamaOutcome → List Char
  | .success resp => resp
  | .noResponseField => (("I\x27m sorry, but I couldn\x27t generate a response.")).data
  | .modelError msg =>
    if strContains msg (("model requires more system memory")).data then
      (("The medical AI model requires more memory than is currently available on this system. Please try again later when more system resources are available, or consider using a smaller model.")).data
    else
      (("The medical AI encountered an error: ")).data ++ msg ++ ((". Please try again later.")).data
  | .invalidJson =>
    (("I apologize, but I encountered an issue processing your symptoms. Please try again with a more concise description.")).data
  | .timeout =>
    if severityVal = (("emergency")).data then
      (("MEDICAL EMERGENCY DETECTED: Your symptoms suggest a potentially life-threatening condition that requires IMMEDIATE medical attention. Please call emergency services (911) or go to the nearest emergency room immediately. Do not wait for the AI analysis to complete.")).data
    else
      (("I apologize for the delay. The analysis is taking longer than expected. Please try again with a more concise description of your main symptoms.")).data
  | .connectionError =>
    (("I\x27m unable to connect to the medical AI service at the moment. Please ensure Ollama is running with the medllama2 model loaded.")).data
  | .otherError msg =>
    (("An unexpected error occurred: ")).data ++ msg ++ ((". Please try again with a simpler description.")).data

/-! ### Supporting lemmas about the segmenter -/

theorem strContains_cons (a : Char) (r n : List Char) :
    strContains (a :: r) n = (n.isPrefixOf (a :: r) || strContains r n) := by
  simp [strContains, suffixesOf]

theorem splitOnF_ne_nil (sep : List Char) (fuel : Nat) (l : List Char) :
    splitOnF sep fuel l ≠ [] := by
  cases fuel with
  | zero => cases l <;> simp [splitOnF]
  | succ n =>
    cases l with
    | nil => simp [splitOnF]
    | cons a rest =>
      simp only [splitOnF]
      split
      · simp
      · split <;> simp

theorem splitOnF_subset (sep : List Char) :
    ∀ (fuel : Nat) (l p : List Char), p ∈ splitOnF sep fuel l → ∀ c ∈ p, c ∈ l := by
  intro fuel
  induction fuel with
  | zero =>
    intro l p hp c hc
    cases l with
    | nil =>
      simp [splitOnF] at hp
      subst hp
      simp at hc
    | cons a r =>
      simp [splitOnF] at hp
      subst hp
      exact hc
  | succ n ih =>
    intro l p hp c hc
    cases l with
    | nil =>
      simp [splitOnF] at hp
      subst hp
      simp at hc
    | cons a rest =>
      simp only [splitOnF] at hp
      by_cases h : sep.isPrefixOf (a :: rest) = true
      · rw [if_pos h] at hp
        rcases List.mem_cons.mp hp with h1 | h1
        · subst h1
          simp at hc
        · exact List.mem_cons_of_mem a (List.mem_of_mem_drop (ih _ _ h1 c hc))
      · rw [if_neg h] at hp
        rcases hrec : splitOnF sep n rest with _ | ⟨q, qs⟩
        · rw [hrec] at hp
          simp at hp
          subst hp
          simp at hc
          subst hc
          exact List.mem_cons_self _ _
        · rw [hrec] at hp
          rcases List.mem_cons.mp hp with h1 | h1
          · subst h1
            rcases List.mem_cons.mp hc with h2 | h2
            · subst h2
              exact List.mem_cons_self _ _
            · have hq : q ∈ splitOnF sep n rest := by
                rw [hrec]
                exact List.mem_cons_self q qs
              exact List.mem_cons_of_mem a (ih _ _ hq c h2)
          · have hq : p ∈ splitOnF sep n rest := by
              rw [hrec]
              exact List.mem_cons_of_mem q h1
            exact List.mem_cons_of_mem a (ih _ _ hq c hc)

theorem splitOnF_no_sep (sep : List Char) :
    ∀ (fuel : Nat) (l : List Char), strContains l sep = false → l.length ≤ fuel →
      splitOnF sep fuel l = [l] := by
  intro fuel
  induction fuel with
  | zero =>
    intro l hc hlen
    cases l with
    | nil => simp [splitOnF]
    | cons a r => simp at hlen
  | succ n ih =>
    intro l hc hlen
    cases l with
    | nil => simp [splitOnF]
    | cons a rest =>
      rw [strContains_cons] at hc
      have h1 : sep.isPrefixOf (a :: rest) = false := by
        cases hpre : sep.isPrefixOf (a :: rest) <;> simp_all
      have h2 : strContains rest sep = false := by
        cases hco : strContains rest sep <;> simp_all
      have hlen2 : rest.length ≤ n := by
        simp at hlen
        omega
      simp only [splitOnF]
      rw [if_neg (by simp [h1])]
      rw [ih rest h2 hlen2]

theorem splitOn_no_sep (sep l : List Char)
    (hc : strContains l sep = false) : splitOn sep l = [l] :=
  splitOnF_no_sep sep l.length l hc (Nat.le_refl _)

theorem splitOnF_len_ne_one (sep : List Char) (hsep : sep ≠ []) :
    ∀ (fuel : Nat) (l : List Char), strContains l sep = true → l.length ≤ fuel →
      (splitOnF sep fuel l).length ≠ 1 := by
  intro fuel
  induction fuel with
  | zero =>
    intro l hc hlen
    cases l with
    | nil =>
      cases sep with
      | nil => exact absurd rfl hsep
      | cons s ss => simp [strContains, suffixesOf, List.isPrefixOf] at hc
    | cons a r => simp at hlen
  | succ n ih =>
    intro l hc hlen
    cases l with
    | nil =>
      cases sep with
      | nil => exact absurd rfl hsep
      | cons s ss => simp [strContains, suffixesOf, List.isPrefixOf] at hc
    | cons a rest =>
      simp only [splitOnF]
      by_cases h : sep.isPrefixOf (a :: rest) = true
      · rw [if_pos h]
        cases hrec : splitOnF sep n (rest.drop (sep.length - 1)) with
        | nil => exact absurd hrec (splitOnF_ne_nil sep n _)
        | cons q qs => simp
      · rw [if_neg h]
        rw [strContains_cons] at hc
        have h2 : strContains rest sep = true := by
          cases hco : strContains rest sep <;> simp_all
        have hlen2 : rest.length ≤ n := by
          simp at hlen
          omega
        have hne := ih rest h2 hlen2
        cases hrec : splitOnF sep n rest with
        | nil => exact absurd hrec (splitOnF_ne_nil sep n rest)
        | cons q qs =>
          rw [hrec] at hne
          simpa using hne

theorem splitOn_len_one_iff (sep l : List Char) (hsep : sep ≠ []) :
    (splitOn sep l).length = 1 ↔ strContains l sep = false := by
  constructor
  · intro h
    cases hc : strContains l sep with
    | false => rfl
    | true => exact absurd h (splitOnF_len_ne_one sep hsep l.length l hc (Nat.le_refl _))
  · intro hc
    rw [splitOn_no_sep sep l hc]
    rfl

theorem mem_dropWhile_subset {p : Char → Bool} {l : List Char} {c : Char}
    (h : c ∈ l.dropWhile p) : c ∈ l := by
  have hsplit := List.takeWhile_append_dropWhile p l
  rw [← hsplit]
  exact List.mem_append_right _ h

theorem all_ws_dropWhile_iff (l : List Char) :
    (∀ c ∈ l.dropWhile Char.isWhitespace, c.isWhitespace = true) ↔
      ∀ c ∈ l, c.isWhitespace = true := by
  constructor
  · intro h c hc
    have hsplit := List.takeWhile_append_dropWhile Char.isWhitespace l
    rw [← hsplit] at hc
    rcases List.mem_append.mp hc with h1 | h1
    · exact List.mem_takeWhile_imp h1
    · exact h c h1
  · intro h c hc
    exact h c (mem_dropWhile_subset hc)

theorem trim_eq_nil_iff (l : List Char) :
    trim l = [] ↔ ∀ c ∈ l, c.isWhitespace = true := by
  unfold trim
  rw [List.reverse_eq_nil_iff, List.dropWhile_eq_nil_iff]
  constructor
  · intro h
    rw [← all_ws_dropWhile_iff]
    intro c hc
    exact h c (List.mem_reverse.mpr hc)
  · intro h c hc
    exact (all_ws_dropWhile_iff l).mpr h c (List.mem_reverse.mp hc)

theorem rawPieces_subset (s : List Char) :
    ∀ p ∈ rawPieces s, ∀ c ∈ p, c ∈ s := by
  intro p hp c hc
  unfold rawPieces at hp
  split at hp
  · split at hp
    · exact splitOnF_subset _ _ _ _ hp c hc
    · split at hp
      · exact splitOnF_subset _ _ _ _ hp c hc
      · split at hp
        · exact splitOnF_subset _ _ _ _ hp c hc
        · exact splitOnF_subset _ _ _ _ hp c hc
  · exact splitOnF_subset _ _ _ _ hp c hc

theorem segment_eq_nil_of_ws (s : List Char) (h : ∀ c ∈ s, c.isWhitespace = true) :
    segment s = [] := by
  unfold segment
  rw [List.filter_eq_nil_iff]
  intro a ha
  rcases List.mem_map.mp ha with ⟨p, hp, rfl⟩
  have htp : trim p = [] :=
    (trim_eq_nil_iff p).mpr fun c hc => h c (rawPieces_subset s p hp c hc)
  simp [htp]

theorem segment_ne_nil_iff (s : List Char) :
    segment s ≠ [] ↔ ∃ p ∈ rawPieces s, ∃ c ∈ p, c.isWhitespace = false := by
  unfold segment
  rw [Ne, List.filter_eq_nil_iff]
  push_neg
  constructor
  · rintro ⟨a, ha, hpa⟩
    rcases List.mem_map.mp ha with ⟨p, hp, rfl⟩
    refine ⟨p, hp, ?_⟩
    have htp : trim p ≠ [] := by
      intro h0
      rw [h0] at hpa
      simp at hpa
    have hnall : ¬ ∀ c ∈ p, c.isWhitespace = true :=
      fun hall => htp ((trim_eq_nil_iff p).mpr hall)
    push_neg at hnall
    rcases hnall with ⟨c, hc, hcw⟩
    exact ⟨c, hc, by simpa using hcw⟩
  · rintro ⟨p, hp, c, hc, hcw⟩
    refine ⟨trim p, List.mem_map.mpr ⟨p, hp, rfl⟩, ?_⟩
    have htp : trim p ≠ [] := by
      intro h0
      have := (trim_eq_nil_iff p).mp h0 c hc
      rw [this] at hcw
      cases hcw
    simp [List.isEmpty_iff, htp]

/-! ### Supporting lemmas about the aggregator -/

theorem severity_order_injective :
    ∀ a b : TriageSeverity, severity_order a = severity_order b → a = b := by
  intro a b
  cases a <;> cases b <;> decide

theorem aggregate_mem {l : List TriageSeverity} (h : l ≠ []) : aggregate l ∈ l := by
  unfold aggregate
  rcases hs : List.insertionSort sevLE l with _ | ⟨m, rest⟩
  · have := (List.perm_insertionSort sevLE l).symm
    rw [hs] at this
    exact absurd this.eq_nil h
  · have hm : m ∈ List.insertionSort sevLE l := by
      rw [hs]
      exact List.mem_cons_self m rest
    exact (List.perm_insertionSort sevLE l).mem_iff.mp hm

theorem aggregate_le {l : List TriageSeverity} {t : TriageSeverity} (ht : t ∈ l) :
    severity_order (aggregate l) ≤ severity_order t := by
  unfold aggregate
  rcases hs : List.insertionSort sevLE l with _ | ⟨m, rest⟩
  · have := (List.perm_insertionSort sevLE l).symm
    rw [hs] at this
    rw [this.eq_nil] at ht
    simp at ht
  · have hsorted := List.sorted_insertionSort sevLE l
    rw [hs] at hsorted
    have ht2 : t ∈ m :: rest := by
      rw [← hs]
      exact (List.perm_insertionSort sevLE l).mem_iff.mpr ht
    rcases List.mem_cons.mp ht2 with h1 | h1
    · subst h1
      exact Nat.le_refl _
    · exact (List.sorted_cons.mp hsorted).1 t h1

theorem aggregate_perm_eq {l l' : List TriageSeverity} (h : l.Perm l') :
    aggregate l = aggregate l' := by
  cases hl : l with
  | nil =>
    subst hl
    rw [h.nil_eq.symm]
  | cons a as =>
    subst hl
    have hne : (a :: as) ≠ ([] : List TriageSeverity) := by simp
    have hne' : l' ≠ [] := by
      intro h0
      subst h0
      exact hne h.eq_nil
    apply severity_order_injective
    apply Nat.le_antisymm
    · exact aggregate_le (h.mem_iff.mpr (aggregate_mem hne'))
    · exact aggregate_le (h.mem_iff.mp (aggregate_mem hne))

/-! ### The unit classifier as an ordered first-match rule list (spec §4.2) -/

/-- Evaluate an ordered list of (condition, outcome) rules top to bottom,
returning the outcome of the first rule whose condition holds, and the
`SELF_CARE` default when none does. -/
def firstMatch : List (Bool × TriageSeverity) → TriageSeverity
  | [] => TriageSeverity.SELF_CARE
  | (b, t) :: rest => if b then t else firstMatch rest

/-- The rule list of spec §4.2 for one unit, in the claimed evaluation order:
the intensifier override, the three domain-override groups flattened to
first-match form, the four tier pattern sets in severity order, and the
chronic-and-worsening fallback. -/
def unitRules (u : List Char) : List (Bool × TriageSeverity) :=
  [(intensifierHit u && painContextHit u, .EMERGENCY),
   (hasAsthma u && asthmaSevereHit u, .EMERGENCY),
   (hasAsthma u && isWorsening u, .SEMI_URGENT),
   (hasAsthma u, .ROUTINE),
   (hasBloodSugar u && bloodSugarDangerHit u, .URGENT),
   (hasBloodSugar u && isWorsening u, .SEMI_URGENT),
   (hasBloodSugar u, .ROUTINE),
   (hasBackPain u && backPainSevereHit u, .SEMI_URGENT),
   (hasBackPain u && isChronic u, .ROUTINE),
   (hasBackPain u, .SELF_CARE),
   (emergencyHit u, .EMERGENCY),
   (urgentHit u, .URGENT),
   (semiUrgentHit u, .SEMI_URGENT),
   (routineHit u, .ROUTINE),
   (isChronic u && isWorsening u, .ROUTINE)]

/-- Flattening a guarded nested three-way conditional into first-match form. -/
theorem ite_nest {α : Type} (a b c : Bool) (x y z w : α) :
    (if a then (if b then x else if c then y else z) else w) =
      (if a && b then x else if a && c then y else if a then z else w) := by
  cases a <;> cases b <;> cases c <;> simp

theorem segment_eq_segment_spec (s : List Char) : segment s = segment_spec s := by
  have hnl : (("\n")).data ≠ [] := by decide
  unfold segment segment_spec rawPieces firstDelim
  by_cases h1 : strContains s (("\n")).data = true
  · have hlen : ¬ (splitOn (("\n")).data s).length = 1 := by
      intro he
      rw [splitOn_len_one_iff _ _ hnl] at he
      rw [h1] at he
      cases he
    rw [if_neg hlen, if_pos h1]
  · have h1f : strContains s (("\n")).data = false := by
      revert h1
      cases strContains s (("\n")).data <;> simp
    have hlen : (splitOn (("\n")).data s).length = 1 :=
      (splitOn_len_one_iff _ _ hnl).mpr h1f
    rw [if_pos hlen, if_neg h1]
    by_cases h2 : strContains s ((" - ")).data = true
    · rw [if_pos h2, if_pos h2]
    · rw [if_neg h2, if_neg h2]
      by_cases h3 : strContains s (("• ")).data = true
      · rw [if_pos h3, if_pos h3]
      · rw [if_neg h3, if_neg h3]
        by_cases h4 : strContains s ((", ")).data = true
        · rw [if_pos h4, if_pos h4]
        · rw [if_neg h4, if_neg h4]
          rw [splitOn_no_sep _ _ h1f]

/-! ### Claim theorems -/

/-- C1: for every input whose segmentation yields a non-empty list of symptom
units, the overall severity returned by `classify_severity` is the most severe
tier present among the per-unit tiers: it is one of them, and its
`severity_order` ordinal (Emergency = 0 < Urgent = 1 < SemiUrgent = 2 <
Routine = 3 < SelfCare = 4) is minimal among them. -/
theorem classify_severity_is_worst_case (s : List Char) (h : segment s ≠ []) :
    classify_severity s ∈ (segment s).map classifyUnit ∧
      ∀ t ∈ (segment s).map classifyUnit,
        severity_order (classify_severity s) ≤ severity_order t := by
  have hm : (segment s).map classifyUnit ≠ [] := by
    intro h0
    exact h (List.map_eq_nil_iff.mp h0)
  exact ⟨aggregate_mem hm, fun t ht => aggregate_le ht⟩

/-- Witness for C1 at the two-unit input `"mild rash\nchest pain"`. -/
theorem classify_severity_is_worst_case_witness :
    classify_severity (("mild rash\nchest pain")).data ∈
        (segment (("mild rash\nchest pain")).data).map classifyUnit ∧
      ∀ t ∈ (segment (("mild rash\nchest pain")).data).map classifyUnit,
        severity_order (classify_severity (("mild rash\nchest pain")).data) ≤
          severity_order t :=
  classify_severity_is_worst_case (("mild rash\nchest pain")).data (by decide)

/-- C2: for every single symptom unit, the classifier computes exactly the
first-match evaluation of the ordered rule list of spec §4.2 — intensifier
override, the asthma / blood-sugar / back-pain domain overrides, the tiered
pattern sets in the order Emergency, Urgent, SemiUrgent, Routine, the
chronic-plus-worsening fallback, and the `SelfCare` default — and in
particular always returns exactly one tier. -/
theorem classifyUnit_eq_firstMatch_unitRules (u : List Char) :
    classifyUnit u = firstMatch (unitRules u) := by
  simp only [classifyUnit, unitRules, firstMatch]
  rw [ite_nest, ite_nest, ite_nest]

/-- C3: for every input string all of whose characters are whitespace
(including the empty string), `triage_symptoms` yields severity `SelfCare`
with pathway `SelfManagement`; being a total Lean function over all of
`List Char`, the embedded pipeline yields a `TriageResult` for every input. -/
theorem triage_symptoms_ws_default (s : List Char) (h : ∀ c ∈ s, c.isWhitespace = true) :
    (triage_symptoms s).severity = TriageSeverity.SELF_CARE ∧
      (triage_symptoms s).care_pathway = CarePathway.SELF_MANAGEMENT := by
  have hseg := segment_eq_nil_of_ws s h
  have hsev : classify_severity s = TriageSeverity.SELF_CARE := by
    unfold classify_severity
    rw [hseg]
    rfl
  refine ⟨hsev, ?_⟩
  show recommend_care_pathway (classify_severity s) = _
  rw [hsev]
  rfl

/-- Witness for C3 at the whitespace-only input `"   "`. -/
theorem triage_symptoms_ws_default_witness :
    (triage_symptoms (("   ")).data).severity = TriageSeverity.SELF_CARE ∧
      (triage_symptoms (("   ")).data).care_pathway = CarePathway.SELF_MANAGEMENT :=
  triage_symptoms_ws_default (("   ")).data (by decide)

/-- C4 counterexample: the input `", "` contains the non-whitespace character
`','` yet segments to zero units, refuting the claimed guarantee that any
input containing a non-whitespace character yields at least one unit. -/
theorem segment_nonws_guarantee_counterexample :
    segment ((", ")).data = [] ∧ ',' ∈ ((", ")).data ∧ (',').isWhitespace = false := by
  decide

/-- C4 amended: the segmenter splits the whole text with the first delimiter
type (newline, `" - "`, `"• "`, `", "`, in that priority order) occurring
anywhere in the text, the whole text being one unit when none occurs, then
trims units and drops empty ones; empty or whitespace-only input yields zero
units; and an input yields at least one unit exactly when some piece of the
chosen split contains a non-whitespace character (an input consisting only of
delimiter and whitespace characters yields zero units). -/
theorem segment_first_delimiter_amended (s : List Char) :
    segment s = segment_spec s ∧
      ((∀ c ∈ s, c.isWhitespace = true) → segment s = []) ∧
      (segment s ≠ [] ↔ ∃ p ∈ rawPieces s, ∃ c ∈ p, c.isWhitespace = false) :=
  ⟨segment_eq_segment_spec s, segment_eq_nil_of_ws s, segment_ne_nil_iff s⟩

/-- Witness for C4 (amended) at the whitespace-only input `"   "`. -/
theorem segment_first_delimiter_amended_witness :
    segment (("   ")).data = [] :=
  (segment_first_delimiter_amended (("   ")).data).2.1 (by decide)

/-- C5: the pathway mapping is injective and is exactly the fixed table
Emergency→EmergencyRoom, Urgent→UrgentCare, SemiUrgent→PrimaryCare,
Routine→Telehealth, SelfCare→SelfManagement (totality is its type), and every
`triage_symptoms` result satisfies `pathway = recommend_care_pathway severity`. -/
theorem pathway_mapping_invariant :
    (∀ a b : TriageSeverity, recommend_care_pathway a = recommend_care_pathway b → a = b) ∧
      (∀ s : List Char,
        (triage_symptoms s).care_pathway =
          recommend_care_pathway ((triage_symptoms s).severity)) ∧
      recommend_care_pathway TriageSeverity.EMERGENCY = CarePathway.EMERGENCY_ROOM ∧
      recommend_care_pathway TriageSeverity.URGENT = CarePathway.URGENT_CARE ∧
      recommend_care_pathway TriageSeverity.SEMI_URGENT = CarePathway.PRIMARY_CARE ∧
      recommend_care_pathway TriageSeverity.ROUTINE = CarePathway.TELEHEALTH ∧
      recommend_care_pathway TriageSeverity.SELF_CARE = CarePathway.SELF_MANAGEMENT := by
  refine ⟨?_, fun s => rfl, rfl, rfl, rfl, rfl, rfl⟩
  intro a b
  cases a <;> cases b <;> decide

/-- Witness for C5, discharging the injectivity hypothesis at a concrete
pair and instantiating the invariant at a concrete input. -/
theorem pathway_mapping_invariant_witness :
    TriageSeverity.EMERGENCY = TriageSeverity.EMERGENCY ∧
      (triage_symptoms (("chest pain")).data).care_pathway =
        recommend_care_pathway ((triage_symptoms (("chest pain")).data).severity) :=
  ⟨pathway_mapping_invariant.1 TriageSeverity.EMERGENCY TriageSeverity.EMERGENCY rfl,
   pathway_mapping_invariant.2.1 (("chest pain")).data⟩

/-- C6: for every input report, severity and pathway are computed by
`classify_severity` and `recommend_care_pathway` alone (neither of which
mentions the pediatric detector), while the instructions are exactly the
pediatric table if the boolean `is_pediatric_case` holds of the whole original
report and the adult table otherwise, indexed by the resolved pathway. -/
theorem pediatric_gates_instructions_only (s : List Char) :
    (triage_symptoms s).severity = classify_severity s ∧
      (triage_symptoms s).care_pathway = recommend_care_pathway (classify_severity s) ∧
      (triage_symptoms s).instructions =
        (if is_pediatric_case s then
          pediatricInstructions (recommend_care_pathway (classify_severity s))
         else adultInstructions (recommend_care_pathway (classify_severity s))) :=
  ⟨rfl, rfl, rfl⟩

/-- C7 counterexample: for the input `"mild rash\nchest pain"` the per-unit
classifications are not `[SelfCare, Emergency]` (the unit `"mild rash"` is
classified `Routine`, by the routine-tier pattern `mild (rash|pain)`). -/
theorem mild_rash_chest_pain_counterexample :
    ¬ ((segment (("mild rash\nchest pain")).data).map classifyUnit =
        [TriageSeverity.SELF_CARE, TriageSeverity.EMERGENCY]) := by
  decide

/-- C7 amended: for the input `"mild rash\nchest pain"`, segmentation yields
the units `["mild rash", "chest pain"]`, the per-unit classifications are
`[Routine, Emergency]` (the routine-tier pattern `mild (rash|pain)` matches
the first unit), and the aggregate severity is `Emergency` with pathway
`EmergencyRoom`. -/
theorem mild_rash_chest_pain_amended :
    segment (("mild rash\nchest pain")).data =
        [(("mild rash")).data, (("chest pain")).data] ∧
      (segment (("mild rash\nchest pain")).data).map classifyUnit =
        [TriageSeverity.ROUTINE, TriageSeverity.EMERGENCY] ∧
      classify_severity (("mild rash\nchest pain")).data = TriageSeverity.EMERGENCY ∧
      (triage_symptoms (("mild rash\nchest pain")).data).care_pathway =
        CarePathway.EMERGENCY_ROOM := by
  decide

/-- C8 counterexample: for the request `"chest pain"`, whose core severity is
`Emergency`, the fallback substituted on a generation connection error
mentions neither "emergency" (in any letter case) nor "911", refuting the
claim that every external-failure fallback directs the user to emergency
services. -/
theorem emergency_fallback_counterexample :
    classify_severity (("chest pain")).data = TriageSeverity.EMERGENCY ∧
      strContains
        (lowerL (ai_response_of (severityValue (classify_severity (("chest pain")).data))
          OllamaOutcome.connectionError)) (("emergency")).data = false ∧
      strContains
        (ai_response_of (severityValue (classify_severity (("chest pain")).data))
          OllamaOutcome.connectionError) (("911")).data = false := by
  decide

/-- C8 amended: only the timeout branch of the fallback selection consults the
severity: on timeout with `Emergency` severity the fallback explicitly directs
to emergency services ("emergency services (911)"), while the
connection-error, invalid-response and model-error fallbacks are fixed texts
that do not mention emergency services even for `Emergency` severity. -/
theorem emergency_fallback_amended :
    strContains (ai_response_of (severityValue TriageSeverity.EMERGENCY) OllamaOutcome.timeout)
        (("emergency services (911)")).data = true ∧
      strContains (lowerL (ai_response_of (severityValue TriageSeverity.EMERGENCY)
        OllamaOutcome.connectionError)) (("emergency")).data = false ∧
      strContains (ai_response_of (severityValue TriageSeverity.EMERGENCY)
        OllamaOutcome.connectionError) (("911")).data = false ∧
      strContains (lowerL (ai_response_of (severityValue TriageSeverity.EMERGENCY)
        OllamaOutcome.invalidJson)) (("emergency")).data = false ∧
      strContains (lowerL (ai_response_of (severityValue TriageSeverity.EMERGENCY)
        (OllamaOutcome.modelError (("boom")).data))) (("emergency")).data = false := by
  decide

/-- C9: the aggregated overall severity is invariant under any permutation of
the symptom-unit order. -/
theorem aggregate_perm_invariant (us vs : List (List Char)) (h : us.Perm vs) :
    aggregate (us.map classifyUnit) = aggregate (vs.map classifyUnit) :=
  aggregate_perm_eq (h.map classifyUnit)

/-- Witness for C9 at a concrete two-unit swap. -/
theorem aggregate_perm_invariant_witness :
    aggregate ([(("mild rash")).data, (("chest pain")).data].map classifyUnit) =
      aggregate ([(("chest pain")).data, (("mild rash")).data].map classifyUnit) :=
  aggregate_perm_invariant _ _
    (List.Perm.swap (("chest pain")).data (("mild rash")).data [])

/-- C10: every unit containing one of the duration substrings
month/months/week/weeks/day/days (case-insensitively) that triggers no
intensifier override, no domain override, and no Emergency, Urgent or
SemiUrgent pattern is classified `Routine` — never `SelfCare` — via the
duration pattern of the routine tier; the self-care pattern list is never
consulted by the classifier, `SelfCare` being reachable only as the default. -/
theorem duration_units_classify_routine (u : List Char)
    (hdate : dateIndicatorHit u = true)
    (hip : (intensifierHit u && painContextHit u) = false)
    (hast : hasAsthma u = false)
    (hbs : hasBloodSugar u = false)
    (hbp : hasBackPain u = false)
    (he : emergencyHit u = false)
    (hu : urgentHit u = false)
    (hsu : semiUrgentHit u = false) :
    classifyUnit u = TriageSeverity.ROUTINE := by
  have hr : routineHit u = true := by
    unfold routineHit
    rw [hdate]
    simp
  unfold classifyUnit
  rw [hip, hast, hbs, hbp, he, hu, hsu, hr]
  simp

/-- Witness for C10: `"sore throat for three days"` matches the self-care
indicator list yet is classified `Routine`, and even `"monday"` triggers the
duration rule. -/
theorem duration_units_classify_routine_witness :
    classifyUnit (("sore throat for three days")).data = TriageSeverity.ROUTINE ∧
      selfCareHit (("sore throat for three days")).data = true ∧
      classifyUnit (("monday")).data = TriageSeverity.ROUTINE :=
  ⟨duration_units_classify_routine (("sore throat for three days")).data (by decide)
      (by decide) (by decide) (by decide) (by decide) (by decide) (by decide) (by decide),
   by decide,
   duration_units_classify_routine (("monday")).data (by decide)
      (by decide) (by decide) (by decide) (by decide) (by decide) (by decide) (by decide)⟩

end MedPrompt
